import Mathlib

/-!
Verification of the uxarray geometry / remapping core.

The development shallowly embeds the code of

* `uxarray/remap/nearest_neighbor.py` (`_nearest_neighbor`),
* `uxarray/grid/geometry.py` (`grid_to_polygons`, `_build_polygon_shells`,
  `_build_corrected_polygon_shells`, `_build_antimeridian_face_indices`),
* `uxarray/core/dataarray.py` (`UxDataArray.to_geodataframe`),

into Lean.  Numpy float arrays are modelled as flat lists of rationals paired
with a shape (row-major layout, exactly as numpy stores them); machine indices
are `Nat`.  External collaborators (the scikit-learn ball tree, the
`antimeridian` fixing package, shapely polygon construction) are modelled from
their documented contracts and kept as explicit parameters where the claims
only depend on those contracts.
-/

set_option linter.unusedVariables false

namespace UX

/-! ### A row-major ndarray model -/

/-- A numpy ndarray: a shape together with the row-major flat data buffer. -/
structure NDArray (α : Type) where
  shape : List Nat
  data : List α

deriving instance DecidableEq for NDArray

/-- Well-formed ndarray: the buffer holds exactly `shape.prod` elements. -/
def NDArray.wf {α : Type} (a : NDArray α) : Prop :=
  a.data.length = a.shape.prod

/-- `np.squeeze`: drop every axis of extent 1; the row-major buffer is
unchanged. -/
def npSqueeze {α : Type} (a : NDArray α) : NDArray α :=
  ⟨a.shape.filter (fun d => d != 1), a.data⟩

/-- Advanced indexing `a[..., idx]` with an integer array `idx`: the result has
the leading axes of `a` followed by the axes of `idx`, and for each leading
multi-index the trailing block is gathered from `a`'s corresponding row at the
positions listed in `idx` (row-major). -/
def gatherLast {α : Type} [Inhabited α] (a : NDArray α) (idx : NDArray Nat) :
    NDArray α :=
  ⟨a.shape.dropLast ++ idx.shape,
    (List.range a.shape.dropLast.prod).flatMap
      (fun j =>
        idx.data.map
          (fun t => a.data.getD (j * a.shape.getLastD 1 + t) default))⟩

/-! ### The mesh, as consumed by `_nearest_neighbor` -/

/-- The element kinds of an unstructured mesh, as named by the
`source_data_mapping` strings in `_nearest_neighbor`. -/
inductive ElementKind
  | nodes
  | edgeCenters
  | faceCenters

deriving instance DecidableEq for ElementKind

/-- The slice of a `Grid` that `_nearest_neighbor` consumes: the three element
counts, the spherical (lon, lat) coordinates and the Cartesian (x, y, z)
coordinates of nodes, edge centers and face centers. -/
structure Grid where
  n_node : Nat
  n_edge : Nat
  n_face : Nat
  node_sph : List (ℚ × ℚ)
  edge_sph : List (ℚ × ℚ)
  face_sph : List (ℚ × ℚ)
  node_cart : List (ℚ × ℚ × ℚ)
  edge_cart : List (ℚ × ℚ × ℚ)
  face_cart : List (ℚ × ℚ × ℚ)

deriving instance DecidableEq for Grid

/-- The coordinate arrays of a grid are indexed by the corresponding counts. -/
def Grid.wf (g : Grid) : Prop :=
  g.node_sph.length = g.n_node ∧ g.edge_sph.length = g.n_edge ∧
    g.face_sph.length = g.n_face ∧ g.node_cart.length = g.n_node ∧
    g.edge_cart.length = g.n_edge ∧ g.face_cart.length = g.n_face

/-- Lines 48–61 of `nearest_neighbor.py`: classify the trailing dimension of
`source_data` against the source grid's element counts, in the order
nodes, edge centers, face centers; `none` models the `ValueError` branch. -/
def resolveSourceDataMapping (g : Grid) (nElements : Nat) : Option ElementKind :=
  if nElements = g.n_node then some .nodes
  else if nElements = g.n_edge then some .edgeCenters
  else if nElements = g.n_face then some .faceCenters
  else none

/-- Destination spherical coordinate pairs selected by `remap_to`
(lines 65–84); `none` models the invalid `remap_to` `ValueError`. -/
def destSphCoords (g : Grid) (remapTo : String) : Option (List (ℚ × ℚ)) :=
  if remapTo = "nodes" then some g.node_sph
  else if remapTo = "edge centers" then some g.edge_sph
  else if remapTo = "face centers" then some g.face_sph
  else none

/-- Destination Cartesian coordinates selected by `remap_to`
(lines 96–118); `none` models the invalid `remap_to` `ValueError`. -/
def destCartCoords (g : Grid) (remapTo : String) : Option (List (ℚ × ℚ × ℚ)) :=
  if remapTo = "nodes" then some g.node_cart
  else if remapTo = "edge centers" then some g.edge_cart
  else if remapTo = "face centers" then some g.face_cart
  else none

/-- The spherical coordinates the source ball tree is built over, selected by
the resolved `source_data_mapping` (`get_ball_tree(coordinates=...)`). -/
def sourceSphCoords (g : Grid) : ElementKind → List (ℚ × ℚ)
  | .nodes => g.node_sph
  | .edgeCenters => g.edge_sph
  | .faceCenters => g.face_sph

/-- The Cartesian coordinates the source ball tree is built over, selected by
the resolved `source_data_mapping`. -/
def sourceCartCoords (g : Grid) : ElementKind → List (ℚ × ℚ × ℚ)
  | .nodes => g.node_cart
  | .edgeCenters => g.edge_cart
  | .faceCenters => g.face_cart

/-- Modelled from the spec: the ball tree (`Grid.get_ball_tree` /
`BallTree.query`, which live outside the reviewed sources) "supports
nearest-neighbor queries returning, for each query point, the index of the
closest indexed element", ties resolved to the first (lowest) index.  The
distance function is the external metric the tree was built with. -/
def nearestIndex {π : Type} [Inhabited π] (d : π → π → ℚ) (pts : List π)
    (q : π) : Nat :=
  (List.range pts.length).foldl
    (fun best j =>
      if d (pts.getD j default) q < d (pts.getD best default) q then j
      else best)
    0

/-- Modelled from the spec: a `k = 1` ball-tree query over the query points
`qs`, returning the index array of shape `(len(qs), 1)` (one neighbor column
per query row, as the tree wrapper returns it to `_nearest_neighbor`). -/
def queryBallTree {π : Type} [Inhabited π] (d : π → π → ℚ) (pts : List π)
    (qs : List π) : NDArray Nat :=
  ⟨[qs.length, 1], qs.map (nearestIndex d pts)⟩

/-- The three `ValueError` raises of `_nearest_neighbor`. -/
inductive RemapError
  | invalidSourceDataShape
  | invalidRemapTo
  | invalidCoordType

deriving instance DecidableEq for RemapError

/-- A `RemapError` corresponding to an unrecognized enum-like string argument
(`remap_to` or `coord_type`), as opposed to the data-shape error. -/
def RemapError.isInvalidArgument : RemapError → Prop
  | .invalidRemapTo => True
  | .invalidCoordType => True
  | .invalidSourceDataShape => False

instance : DecidablePred RemapError.isInvalidArgument := by
  intro e
  cases e <;> simp [RemapError.isInvalidArgument] <;> infer_instance

/-- The observable outcome of one `_nearest_neighbor` call: the returned value
(or the `ValueError` raised), plus whether `get_ball_tree` was ever called. -/
structure RemapRun where
  result : Except RemapError (NDArray ℚ)
  treeBuilt : Bool

deriving instance DecidableEq for Except

deriving instance DecidableEq for RemapRun

/-- Lines 138–139 of `nearest_neighbor.py`: squeeze the neighbor-index array
when it is higher than 1-dimensional. -/
def squeezeIndices (nn : NDArray Nat) : NDArray Nat :=
  if 1 < nn.shape.length then npSqueeze nn else nn

/-- Lines 144–146: squeeze the gathered data when the input was 1-D. -/
def postGather (sourceData destinationData : NDArray ℚ) : NDArray ℚ :=
  if sourceData.shape.length = 1 then npSqueeze destinationData
  else destinationData

/-- Lines 136–148 of `nearest_neighbor.py`: squeeze the neighbor-index array
when it is higher than 1-dimensional, gather `source_data[..., indices]`, and
squeeze the result when the input was a 1-D slice. -/
def gatherDestinationData (sourceData : NDArray ℚ) (nn : NDArray Nat) :
    NDArray ℚ :=
  postGather sourceData (gatherLast sourceData (squeezeIndices nn))

/-- The body of `_nearest_neighbor` (lines 45–148), instrumented with the
`treeBuilt` observation.  `dSph`/`dCart` are the external metrics of the
spherical resp. Cartesian ball tree. -/
def nearestNeighborRun (dSph : ℚ × ℚ → ℚ × ℚ → ℚ)
    (dCart : ℚ × ℚ × ℚ → ℚ × ℚ × ℚ → ℚ) (sourceGrid destinationGrid : Grid)
    (sourceData : NDArray ℚ) (remapTo coordType : String) : RemapRun :=
  match resolveSourceDataMapping sourceGrid (sourceData.shape.getLastD 0) with
  | none => ⟨.error .invalidSourceDataShape, false⟩
  | some mapping =>
    if coordType = "spherical" then
      match destSphCoords destinationGrid remapTo with
      | none => ⟨.error .invalidRemapTo, false⟩
      | some destPts =>
        let nn := queryBallTree dSph (sourceSphCoords sourceGrid mapping)
          destPts
        ⟨.ok (gatherDestinationData sourceData nn), true⟩
    else if coordType = "cartesian" then
      match destCartCoords destinationGrid remapTo with
      | none => ⟨.error .invalidRemapTo, false⟩
      | some destPts =>
        let nn := queryBallTree dCart (sourceCartCoords sourceGrid mapping)
          destPts
        ⟨.ok (gatherDestinationData sourceData nn), true⟩
    else ⟨.error .invalidCoordType, false⟩

/-- `_nearest_neighbor` itself: the value returned (or error raised). -/
def nearestNeighbor (dSph : ℚ × ℚ → ℚ × ℚ → ℚ)
    (dCart : ℚ × ℚ × ℚ → ℚ × ℚ × ℚ → ℚ) (sourceGrid destinationGrid : Grid)
    (sourceData : NDArray ℚ) (remapTo coordType : String) :
    Except RemapError (NDArray ℚ) :=
  (nearestNeighborRun dSph dCart sourceGrid destinationGrid sourceData remapTo
    coordType).result

/-- Lines 173–178 of `nearest_neighbor.py` (`_nearest_neighbor_uxda`): the
destination element count selected by `remap_to`. -/
def remapToDim (g : Grid) (remapTo : String) : Nat :=
  if remapTo = "nodes" then g.n_node
  else if remapTo = "edge centers" then g.n_edge
  else g.n_face

/-- A concrete squared-Euclidean metric on (lon, lat) pairs, used to
instantiate the abstract spherical ball-tree metric in concrete runs. -/
def sqDistSph (p q : ℚ × ℚ) : ℚ :=
  (p.1 - q.1) * (p.1 - q.1) + (p.2 - q.2) * (p.2 - q.2)

/-- The squared-Euclidean (Minkowski, p = 2) metric on (x, y, z) triples used
by the Cartesian ball tree. -/
def sqDistCart (p q : ℚ × ℚ × ℚ) : ℚ :=
  (p.1 - q.1) * (p.1 - q.1) + (p.2.1 - q.2.1) * (p.2.1 - q.2.1) +
    (p.2.2 - q.2.2) * (p.2.2 - q.2.2)

/-- A discrete metric (0 on the diagonal, 1 elsewhere): a valid instance of
the abstract ball-tree metric — it separates distinct points — that is
directly evaluable on concrete inputs. -/
def discreteDist {π : Type} [DecidableEq π] (p q : π) : ℚ :=
  if p = q then 0 else 1

/-- A sample source grid with two nodes, used in concrete runs. -/
def srcGrid2 : Grid := ⟨2, 5, 6, [(0, 0), (1, 1)], [], [], [], [], []⟩

/-- A sample well-formed destination grid with two faces. -/
def destGrid2 : Grid :=
  ⟨3, 4, 2, [(0, 0), (0, 1), (0, 2)], [(0, 0), (0, 1), (0, 2), (0, 3)],
    [(0, 0), (7, 7)], [(0, 0, 0), (0, 0, 1), (0, 0, 2)],
    [(0, 0, 0), (0, 0, 1), (0, 0, 2), (0, 0, 3)], [(0, 0, 0), (1, 1, 1)]⟩

/-- A well-formed mesh whose node count equals its face count, with distinct
node and face-center coordinates. -/
def gridAmb : Grid :=
  ⟨2, 3, 2, [(0, 0), (9, 9)], [(0, 2), (0, 3), (0, 4)], [(5, 5), (6, 6)],
    [(0, 0, 0), (9, 9, 9)], [(0, 0, 2), (0, 0, 3), (0, 0, 4)],
    [(5, 5, 5), (6, 6, 6)]⟩

/-- A sample well-formed destination grid with a single face. -/
def destGrid1 : Grid :=
  ⟨3, 4, 1, [(0, 0), (0, 1), (0, 2)], [(0, 0), (0, 1), (0, 2), (0, 3)],
    [(0, 0)], [(0, 0, 0), (0, 0, 1), (0, 0, 2)],
    [(0, 0, 0), (0, 0, 1), (0, 0, 2), (0, 0, 3)], [(0, 0, 0)]⟩

/-! ### Polygon shells and the antimeridian corrector (`grid/geometry.py`) -/

/-- A polygon shell: an ordered list of (x, y) vertex pairs for one face. -/
abbrev Shell := List (ℚ × ℚ)

/-- Numpy's float modulus `x % y`: `x - y * ⌊x / y⌋`. -/
def qmod (x y : ℚ) : ℚ :=
  x - y * (⌊x / y⌋ : ℤ)

/-- `arr.max()` of a (nonempty in practice) coordinate array. -/
def listMax : List ℚ → ℚ
  | [] => 0
  | x :: xs => xs.foldl max x

/-- Modelled from the spec: `close_face_nodes` lives in
`uxarray/grid/connectivity.py`, outside the reviewed sources.  Per the spec's
shell-builder algorithm each face row of the closed connectivity holds its
first `k` real node indices (`k` = that face's node count) followed by the
first node index again to close the ring, fill-padded to the uniform row
length `nMaxMesh2_face_nodes + 1`. -/
def closeFaceRow (row : List Nat) (k nMax fill : Nat) : List Nat :=
  row.take k ++ [row.headD fill] ++ List.replicate (nMax + 1 - (k + 1)) fill

/-- Modelled from the spec: the closed face-node connectivity table, one
`closeFaceRow` per face. -/
def closeFaceNodes (faceNodes : List (List Nat)) (nNodesPerFace : List Nat)
    (nMax fill : Nat) : List (List Nat) :=
  (faceNodes.zip nNodesPerFace).map (fun rk => closeFaceRow rk.1 rk.2 nMax fill)

/-- Lines 58–59 of geometry.py: remap all longitudes into [-180, 180) when
any node longitude exceeds 180. -/
def normalizeLon (nodeX : List ℚ) : List ℚ :=
  if 180 < listMax nodeX then nodeX.map (fun x => qmod (x + 180) 360 - 180)
  else nodeX

/-- The loop body of `_build_polygon_shells` (lines 62–75): given one closed
face row paired with its `nNodes_per_face_closed` count `m`, build the shell
of length `nMax + 1` whose first `m` positions hold the coordinates of the
closed ring nodes and whose remaining positions repeat `polygon[0]` (the
coordinates of the row's first node). -/
def shellOfClosedRow (nodeX2 nodeY : List ℚ) (nMax fill : Nat)
    (rm : List Nat × Nat) : Shell :=
  (List.range (nMax + 1)).map
    (fun p =>
      if p < rm.2 then
        (nodeX2.getD (rm.1.getD p fill) 0, nodeY.getD (rm.1.getD p fill) 0)
      else
        (nodeX2.getD (rm.1.headD fill) 0, nodeY.getD (rm.1.headD fill) 0))

/-- `_build_polygon_shells` (geometry.py lines 42–77): normalize longitudes,
close the face-node rows, and build one uniform-length shell per face. -/
def buildPolygonShells (nodeX nodeY : List ℚ) (faceNodes : List (List Nat))
    (nMax : Nat) (nNodesPerFace : List Nat) (fill : Nat) : List Shell :=
  ((closeFaceNodes faceNodes nNodesPerFace nMax fill).zip
      (nNodesPerFace.map (· + 1))).map
    (shellOfClosedRow (normalizeLon nodeX) nodeY nMax fill)

/-- The per-face predicate of `_build_antimeridian_face_indices`
(geometry.py lines 119–126): `np.any(np.abs(np.diff(shell[:, 0])) >= 180)`,
i.e. some pair of consecutive shell vertices differs in longitude by at least
180 degrees in absolute value. -/
def crossesAntimeridian (s : Shell) : Bool :=
  let xs := s.map Prod.fst
  (xs.zip xs.tail).any (fun p => decide (180 ≤ |p.2 - p.1|))

/-- `_build_antimeridian_face_indices`: the (strictly increasing) list of face
indices whose shell satisfies `crossesAntimeridian`. -/
def antimeridianFaceIndices (shells : List Shell) : List Nat :=
  (List.range shells.length).filter (fun i => crossesAntimeridian (shells.getD i []))

/-- `_build_corrected_polygon_shells` (geometry.py lines 81–116), parametric
in the external `antimeridian.fix_polygon` collaborator `fix` (which returns
the ordered exterior shells of the corrected Polygon/MultiPolygon): walk the
faces in order, appending each corrected part's shell and, for every appended
part, the source face index. -/
def buildCorrectedPolygonShells (fix : Shell → List Shell)
    (shells : List Shell) : List Shell × List Nat :=
  (List.range shells.length).foldl
    (fun acc i =>
      let parts := fix (shells.getD i [])
      (acc.1 ++ parts, acc.2 ++ List.replicate parts.length i))
    ([], [])

/-- `grid_to_polygons` (geometry.py lines 15–39), parametric in the polygon
type `P` (shapely `Polygon`/`MultiPolygon`) and the external
`antimeridian.fix_polygon` collaborator: gather the flagged polygons, correct
each, and write each corrected polygon back at its original face index by
walking the flagged indices in reverse while popping corrected results. -/
def gridToPolygons {P : Type} [Inhabited P] (fixPolygon : P → P)
    (polygons : List P) (antimeridianIndices : List Nat) : List P :=
  ((antimeridianIndices.zip
      ((antimeridianIndices.map (fun i => polygons.getD i default)).map
        fixPolygon)).reverse).foldl
    (fun ps ic => ps.set ic.1 ic.2) polygons

/-- `grid_to_polygons` at the grid level: one shapely polygon per shell (a
shapely polygon is determined by its shell here, so `P := Shell`), with the
flagged indices computed by `_build_antimeridian_face_indices`. -/
def gridToPolygonsOfShells (fixPolygon : Shell → Shell)
    (shells : List Shell) : List Shell :=
  gridToPolygons fixPolygon shells (antimeridianFaceIndices shells)

/-! ### `UxDataArray.to_geodataframe` (`core/dataarray.py` lines 141–196) -/

/-- `np.delete(arr, indices, axis=0)` on a 1-D array: drop the entries whose
position appears in `indices`. -/
def npDelete (xs : List ℚ) (idxs : List Nat) : List ℚ :=
  (xs.enum.filter (fun p => !(idxs.contains p.1))).map Prod.snd

/-- The three `ValueError` raises of `UxDataArray.to_geodataframe`. -/
inductive GdfError
  | notOneDimensional
  | sizeMatchesNodes
  | sizeMismatch

deriving instance DecidableEq for GdfError

/-- `UxDataArray.to_geodataframe` restricted to its observable data behavior:
the raised error, or the data column attached to the geometry table.  `da` is
the calling variable's ndarray, `shells` the grid's polygon shells (from which
`grid.antimeridian_face_indices` derives). -/
def toGeodataframe (da : NDArray ℚ) (nFace nNode : Nat) (shells : List Shell)
    (excludeAntimeridian : Bool) : Except GdfError (List ℚ) :=
  if 1 < da.shape.length then .error .notOneDimensional
  else if da.data.length = nFace then
    .ok
      (if excludeAntimeridian then
        npDelete da.data (antimeridianFaceIndices shells)
      else da.data)
  else if da.data.length = nNode then .error .sizeMatchesNodes
  else .error .sizeMismatch

/-! ### Helper lemmas -/

lemma resolveSourceDataMapping_eq_none_iff (g : Grid) (t : Nat) :
    resolveSourceDataMapping g t = none ↔
      ¬(t = g.n_node ∨ t = g.n_edge ∨ t = g.n_face) := by
  unfold resolveSourceDataMapping
  split <;> rename_i h1
  · simp [h1]
  · split <;> rename_i h2
    · simp [h2]
    · split <;> rename_i h3
      · simp [h3]
      · simp [h1, h2, h3]

lemma nearestNeighborRun_shape_error_iff (dSph : ℚ × ℚ → ℚ × ℚ → ℚ)
    (dCart : ℚ × ℚ × ℚ → ℚ × ℚ × ℚ → ℚ) (sg dg : Grid)
    (sourceData : NDArray ℚ) (remapTo coordType : String) :
    (nearestNeighborRun dSph dCart sg dg sourceData remapTo coordType).result
        = .error .invalidSourceDataShape ↔
      resolveSourceDataMapping sg (sourceData.shape.getLastD 0) = none := by
  unfold nearestNeighborRun
  cases h : resolveSourceDataMapping sg (sourceData.shape.getLastD 0) with
  | none => simp
  | some mapping =>
    simp only [Option.some.injEq]
    constructor
    · intro hres
      exfalso
      revert hres
      split
      · cases hd : destSphCoords dg remapTo <;> simp [hd]
      · split
        · cases hd : destCartCoords dg remapTo <;> simp [hd]
        · simp
    · intro hres
      exact absurd hres (by simp)

lemma resolveSourceDataMapping_eq_nodes (g : Grid) (t : Nat)
    (h : t = g.n_node) : resolveSourceDataMapping g t = some .nodes := by
  unfold resolveSourceDataMapping
  rw [if_pos h]

lemma resolveSourceDataMapping_eq_edges (g : Grid) (t : Nat)
    (h1 : t ≠ g.n_node) (h2 : t = g.n_edge) :
    resolveSourceDataMapping g t = some .edgeCenters := by
  unfold resolveSourceDataMapping
  rw [if_neg h1, if_pos h2]

lemma resolveSourceDataMapping_eq_faces (g : Grid) (t : Nat)
    (h1 : t ≠ g.n_node) (h2 : t ≠ g.n_edge) (h3 : t = g.n_face) :
    resolveSourceDataMapping g t = some .faceCenters := by
  unfold resolveSourceDataMapping
  rw [if_neg h1, if_neg h2, if_pos h3]

lemma destSphCoords_eq_none (g : Grid) (remapTo : String)
    (h : ¬(remapTo = "nodes" ∨ remapTo = "edge centers" ∨
        remapTo = "face centers")) :
    destSphCoords g remapTo = none := by
  push_neg at h
  simp [destSphCoords, h.1, h.2.1, h.2.2]

lemma destCartCoords_eq_none (g : Grid) (remapTo : String)
    (h : ¬(remapTo = "nodes" ∨ remapTo = "edge centers" ∨
        remapTo = "face centers")) :
    destCartCoords g remapTo = none := by
  push_neg at h
  simp [destCartCoords, h.1, h.2.1, h.2.2]

/-! ### Claim C1 -/

/-- C1: `_nearest_neighbor` raises the invalid-shape error exactly when the
trailing dimension of `source_data` matches none of the source grid's
`n_node`, `n_edge`, `n_face`; when it matches exactly one of the three, that
match resolves the source element kind and no shape error is raised. -/
theorem c1_invalid_shape_iff (dSph : ℚ × ℚ → ℚ × ℚ → ℚ)
    (dCart : ℚ × ℚ × ℚ → ℚ × ℚ × ℚ → ℚ) (sg dg : Grid)
    (sourceData : NDArray ℚ) (remapTo coordType : String)
    (hnd : sourceData.shape ≠ []) :
    ((nearestNeighborRun dSph dCart sg dg sourceData remapTo coordType).result
        = .error .invalidSourceDataShape ↔
      ¬(sourceData.shape.getLastD 0 = sg.n_node ∨
        sourceData.shape.getLastD 0 = sg.n_edge ∨
        sourceData.shape.getLastD 0 = sg.n_face))
    ∧ (sourceData.shape.getLastD 0 = sg.n_node ∧
        sourceData.shape.getLastD 0 ≠ sg.n_edge ∧
        sourceData.shape.getLastD 0 ≠ sg.n_face →
        resolveSourceDataMapping sg (sourceData.shape.getLastD 0)
          = some .nodes)
    ∧ (sourceData.shape.getLastD 0 = sg.n_edge ∧
        sourceData.shape.getLastD 0 ≠ sg.n_node ∧
        sourceData.shape.getLastD 0 ≠ sg.n_face →
        resolveSourceDataMapping sg (sourceData.shape.getLastD 0)
          = some .edgeCenters)
    ∧ (sourceData.shape.getLastD 0 = sg.n_face ∧
        sourceData.shape.getLastD 0 ≠ sg.n_node ∧
        sourceData.shape.getLastD 0 ≠ sg.n_edge →
        resolveSourceDataMapping sg (sourceData.shape.getLastD 0)
          = some .faceCenters) := by
  refine ⟨?_, ?_, ?_, ?_⟩
  · rw [nearestNeighborRun_shape_error_iff]
    exact resolveSourceDataMapping_eq_none_iff sg _
  · rintro ⟨h1, h2, h3⟩
    exact resolveSourceDataMapping_eq_nodes sg _ h1
  · rintro ⟨h1, h2, h3⟩
    exact resolveSourceDataMapping_eq_edges sg _ h2 h1
  · rintro ⟨h1, h2, h3⟩
    exact resolveSourceDataMapping_eq_faces sg _ h2 h3 h1

theorem c1_invalid_shape_iff_witness :
    ((nearestNeighborRun sqDistSph sqDistCart
        ⟨4, 5, 6, [], [], [], [], [], []⟩ ⟨4, 5, 6, [], [], [], [], [], []⟩
        ⟨[2, 4], List.replicate 8 0⟩ "face centers" "spherical").result
        = .error .invalidSourceDataShape ↔
      ¬((4 : Nat) = 4 ∨ (4 : Nat) = 5 ∨ (4 : Nat) = 6))
    ∧ ((4 : Nat) = 4 ∧ (4 : Nat) ≠ 5 ∧ (4 : Nat) ≠ 6 →
        resolveSourceDataMapping ⟨4, 5, 6, [], [], [], [], [], []⟩ 4
          = some .nodes)
    ∧ ((4 : Nat) = 5 ∧ (4 : Nat) ≠ 4 ∧ (4 : Nat) ≠ 6 →
        resolveSourceDataMapping ⟨4, 5, 6, [], [], [], [], [], []⟩ 4
          = some .edgeCenters)
    ∧ ((4 : Nat) = 6 ∧ (4 : Nat) ≠ 4 ∧ (4 : Nat) ≠ 5 →
        resolveSourceDataMapping ⟨4, 5, 6, [], [], [], [], [], []⟩ 4
          = some .faceCenters) :=
  c1_invalid_shape_iff sqDistSph sqDistCart
    ⟨4, 5, 6, [], [], [], [], [], []⟩ ⟨4, 5, 6, [], [], [], [], [], []⟩
    ⟨[2, 4], List.replicate 8 0⟩ "face centers" "spherical" (by decide)

/-! ### Claim C8 -/

/-- C8: with a valid source-data shape, an unrecognized `remap_to` or
`coord_type` makes `_nearest_neighbor` raise an invalid-argument error, and on
every such path `get_ball_tree` is never reached. -/
theorem c8_invalid_argument_before_tree (dSph : ℚ × ℚ → ℚ × ℚ → ℚ)
    (dCart : ℚ × ℚ × ℚ → ℚ × ℚ × ℚ → ℚ) (sg dg : Grid)
    (sourceData : NDArray ℚ) (remapTo coordType : String)
    (hshape :
      resolveSourceDataMapping sg (sourceData.shape.getLastD 0) ≠ none)
    (hbad :
      ¬(remapTo = "nodes" ∨ remapTo = "edge centers" ∨
          remapTo = "face centers") ∨
        ¬(coordType = "spherical" ∨ coordType = "cartesian")) :
    (nearestNeighborRun dSph dCart sg dg sourceData remapTo
        coordType).treeBuilt = false ∧
      ∃ e, (nearestNeighborRun dSph dCart sg dg sourceData remapTo
          coordType).result = .error e ∧ e.isInvalidArgument := by
  obtain ⟨mapping, hm⟩ := Option.ne_none_iff_exists'.mp hshape
  unfold nearestNeighborRun
  rw [hm]
  by_cases hsph : coordType = "spherical"
  · have hr : ¬(remapTo = "nodes" ∨ remapTo = "edge centers" ∨
        remapTo = "face centers") := by
      rcases hbad with h | h
      · exact h
      · exact absurd (Or.inl hsph) h
    rw [destSphCoords_eq_none dg remapTo hr]
    simp [hsph, RemapError.isInvalidArgument]
  · by_cases hcart : coordType = "cartesian"
    · have hr : ¬(remapTo = "nodes" ∨ remapTo = "edge centers" ∨
          remapTo = "face centers") := by
        rcases hbad with h | h
        · exact h
        · exact absurd (Or.inr hcart) h
      rw [destCartCoords_eq_none dg remapTo hr]
      simp [hsph, hcart, RemapError.isInvalidArgument]
    · simp [hsph, hcart, RemapError.isInvalidArgument]

theorem c8_invalid_argument_before_tree_witness :
    (nearestNeighborRun sqDistSph sqDistCart
        ⟨2, 5, 6, [(0, 0), (1, 1)], [], [], [], [], []⟩
        ⟨3, 4, 1, [], [], [(0, 0)], [], [], []⟩
        ⟨[2], [3, 4]⟩ "faces" "spherical").treeBuilt = false ∧
      ∃ e, (nearestNeighborRun sqDistSph sqDistCart
          ⟨2, 5, 6, [(0, 0), (1, 1)], [], [], [], [], []⟩
          ⟨3, 4, 1, [], [], [(0, 0)], [], [], []⟩
          ⟨[2], [3, 4]⟩ "faces" "spherical").result = .error e ∧
        e.isInvalidArgument :=
  c8_invalid_argument_before_tree sqDistSph sqDistCart
    ⟨2, 5, 6, [(0, 0), (1, 1)], [], [], [], [], []⟩
    ⟨3, 4, 1, [], [], [(0, 0)], [], [], []⟩
    ⟨[2], [3, 4]⟩ "faces" "spherical" (by decide) (Or.inl (by decide))

/-! ### Claim C7 -/

/-- C7: `to_geodataframe` on a 1-D variable succeeds exactly when the
variable's size is `n_face`; any other size raises the size-mismatch error,
with the more specific node-size message when the size equals `n_node` and the
generic message otherwise. -/
theorem c7_size_mismatch_errors (da : NDArray ℚ) (nFace nNode : Nat)
    (shells : List Shell) (excl : Bool) (hdim : da.shape.length = 1) :
    ((∃ col, toGeodataframe da nFace nNode shells excl = .ok col) ↔
      da.data.length = nFace)
    ∧ (da.data.length ≠ nFace →
        toGeodataframe da nFace nNode shells excl =
          .error
            (if da.data.length = nNode then .sizeMatchesNodes
            else .sizeMismatch)) := by
  unfold toGeodataframe
  rw [hdim]
  simp only [lt_irrefl, if_false]
  constructor
  · by_cases hf : da.data.length = nFace
    · simp [hf]
    · rw [if_neg hf]
      simp only [hf, iff_false, not_exists]
      intro col
      split <;> simp
  · intro hf
    rw [if_neg hf]
    split <;> rfl

theorem c7_size_mismatch_errors_witness :
    ((∃ col, toGeodataframe ⟨[2], [3, 4]⟩ 5 2 [] false = .ok col) ↔
      ([(3 : ℚ), 4]).length = 5)
    ∧ (([(3 : ℚ), 4]).length ≠ 5 →
        toGeodataframe ⟨[2], [3, 4]⟩ 5 2 [] false =
          .error
            (if ([(3 : ℚ), 4]).length = 2 then .sizeMatchesNodes
            else .sizeMismatch)) :=
  c7_size_mismatch_errors ⟨[2], [3, 4]⟩ 5 2 [] false (by decide)

/-! ### Claim C3 -/

lemma mem_antimeridianFaceIndices (shells : List Shell) (i : Nat) :
    i ∈ antimeridianFaceIndices shells ↔
      i < shells.length ∧ crossesAntimeridian (shells.getD i []) = true := by
  unfold antimeridianFaceIndices
  rw [List.mem_filter, List.mem_range]

lemma crossesAntimeridian_iff (s : Shell) :
    crossesAntimeridian s = true ↔
      ∃ j, j + 1 < s.length ∧
        180 ≤ |(s.getD (j + 1) (0, 0)).1 - (s.getD j (0, 0)).1| := by
  unfold crossesAntimeridian
  rw [List.any_eq_true]
  constructor
  · rintro ⟨p, hp, hP⟩
    rw [List.mem_iff_getElem] at hp
    obtain ⟨j, hj, hpj⟩ := hp
    have hj1 : j + 1 < s.length := by
      simp only [List.length_zip, List.length_tail, List.length_map] at hj
      omega
    subst hpj
    rw [List.getElem_zip, List.getElem_tail, List.getElem_map,
      List.getElem_map] at hP
    simp only [decide_eq_true_eq] at hP
    refine ⟨j, hj1, ?_⟩
    rw [List.getD_eq_getElem _ _ hj1, List.getD_eq_getElem _ _ (by omega)]
    exact hP
  · rintro ⟨j, hj1, hP⟩
    have hj : j < ((s.map Prod.fst).zip (s.map Prod.fst).tail).length := by
      simp only [List.length_zip, List.length_tail, List.length_map]
      omega
    refine ⟨_, List.getElem_mem hj, ?_⟩
    rw [List.getElem_zip, List.getElem_tail, List.getElem_map,
      List.getElem_map]
    simp only [decide_eq_true_eq]
    rw [List.getD_eq_getElem _ _ hj1, List.getD_eq_getElem _ _ (by omega)]
      at hP
    exact hP

/-- C3: a face is flagged by `_build_antimeridian_face_indices` exactly when
some pair of consecutive vertices of its shell differs in longitude by at
least 180°; in particular adjacent longitudes +179 and −179 flag the face,
and a face whose longitudes all lie in a 10°-wide window is not flagged. -/
theorem c3_antimeridian_detection (shells : List Shell) (i : Nat)
    (hi : i < shells.length) :
    (i ∈ antimeridianFaceIndices shells ↔
      ∃ j, j + 1 < (shells.getD i []).length ∧
        180 ≤ |((shells.getD i []).getD (j + 1) (0, 0)).1 -
          ((shells.getD i []).getD j (0, 0)).1|)
    ∧ (∀ j, j + 1 < (shells.getD i []).length →
        ((shells.getD i []).getD j (0, 0)).1 = 179 →
        ((shells.getD i []).getD (j + 1) (0, 0)).1 = -179 →
        i ∈ antimeridianFaceIndices shells)
    ∧ (∀ c : ℚ, (∀ p ∈ shells.getD i [], c ≤ p.1 ∧ p.1 ≤ c + 10) →
        i ∉ antimeridianFaceIndices shells) := by
  have hiff : i ∈ antimeridianFaceIndices shells ↔
      ∃ j, j + 1 < (shells.getD i []).length ∧
        180 ≤ |((shells.getD i []).getD (j + 1) (0, 0)).1 -
          ((shells.getD i []).getD j (0, 0)).1| := by
    rw [mem_antimeridianFaceIndices, crossesAntimeridian_iff]
    simp [hi]
  refine ⟨hiff, ?_, ?_⟩
  · intro j hj h1 h2
    rw [hiff]
    refine ⟨j, hj, ?_⟩
    rw [h1, h2]
    norm_num
  · intro c hc hmem
    rw [hiff] at hmem
    obtain ⟨j, hj, habs⟩ := hmem
    have hb : j < (shells.getD i []).length := by omega
    have hm1 : (shells.getD i []).getD j (0, 0) ∈ shells.getD i [] := by
      rw [List.getD_eq_getElem (shells.getD i []) (0, 0) hb]
      exact List.getElem_mem hb
    have hm2 : (shells.getD i []).getD (j + 1) (0, 0) ∈ shells.getD i [] := by
      rw [List.getD_eq_getElem (shells.getD i []) (0, 0) hj]
      exact List.getElem_mem hj
    obtain ⟨ha1, ha2⟩ := hc _ hm1
    obtain ⟨hb1, hb2⟩ := hc _ hm2
    have hle : |((shells.getD i []).getD (j + 1) (0, 0)).1 -
        ((shells.getD i []).getD j (0, 0)).1| ≤ 10 := by
      rw [abs_sub_le_iff]
      constructor <;> linarith
    linarith

theorem c3_antimeridian_detection_witness :
    ((0 : Nat) ∈ antimeridianFaceIndices
        [[(179, 0), (-179, 0), (-179, 1), (179, 0)]] ↔
      ∃ j, j + 1 < ([[((179 : ℚ), (0 : ℚ)), (-179, 0), (-179, 1),
          (179, 0)]].getD 0 []).length ∧
        180 ≤ |(([[((179 : ℚ), (0 : ℚ)), (-179, 0), (-179, 1),
            (179, 0)]].getD 0 []).getD (j + 1) (0, 0)).1 -
          (([[((179 : ℚ), (0 : ℚ)), (-179, 0), (-179, 1),
            (179, 0)]].getD 0 []).getD j (0, 0)).1|)
    ∧ (∀ j, j + 1 < ([[((179 : ℚ), (0 : ℚ)), (-179, 0), (-179, 1),
          (179, 0)]].getD 0 []).length →
        (([[((179 : ℚ), (0 : ℚ)), (-179, 0), (-179, 1),
          (179, 0)]].getD 0 []).getD j (0, 0)).1 = 179 →
        (([[((179 : ℚ), (0 : ℚ)), (-179, 0), (-179, 1),
          (179, 0)]].getD 0 []).getD (j + 1) (0, 0)).1 = -179 →
        (0 : Nat) ∈ antimeridianFaceIndices
          [[(179, 0), (-179, 0), (-179, 1), (179, 0)]])
    ∧ (∀ c : ℚ, (∀ p ∈ [[((179 : ℚ), (0 : ℚ)), (-179, 0), (-179, 1),
          (179, 0)]].getD 0 [], c ≤ p.1 ∧ p.1 ≤ c + 10) →
        (0 : Nat) ∉ antimeridianFaceIndices
          [[(179, 0), (-179, 0), (-179, 1), (179, 0)]]) :=
  c3_antimeridian_detection
    [[(179, 0), (-179, 0), (-179, 1), (179, 0)]] 0 (by decide)

/-! ### Claim C4 -/

lemma getD_zero_eq_headD (l : List Nat) (d : Nat) : l.getD 0 d = l.headD d := by
  cases l <;> rfl

lemma closeFaceRow_headD (row : List Nat) (k nMax fill : Nat) :
    (closeFaceRow row k nMax fill).headD fill = row.headD fill := by
  unfold closeFaceRow
  cases row with
  | nil => cases k <;> simp
  | cons a t => cases k <;> simp

lemma closeFaceRow_getD_self (row : List Nat) (k nMax fill : Nat)
    (hk : k ≤ row.length) :
    (closeFaceRow row k nMax fill).getD k fill = row.headD fill := by
  unfold closeFaceRow
  have htk : (row.take k).length = k := by
    rw [List.length_take]
    omega
  rw [List.getD_append _ _ _ _ (by simp [htk])]
  rw [List.getD_append_right _ _ _ _ (by omega)]
  rw [htk]
  simp

lemma shellOfClosedRow_length (nodeX2 nodeY : List ℚ) (nMax fill : Nat)
    (rm : List Nat × Nat) :
    (shellOfClosedRow nodeX2 nodeY nMax fill rm).length = nMax + 1 := by
  simp [shellOfClosedRow]

lemma shellOfClosedRow_getD (nodeX2 nodeY : List ℚ) (nMax fill : Nat)
    (rm : List Nat × Nat) (p : Nat) (hp : p < nMax + 1) :
    (shellOfClosedRow nodeX2 nodeY nMax fill rm).getD p (0, 0) =
      if p < rm.2 then
        (nodeX2.getD (rm.1.getD p fill) 0, nodeY.getD (rm.1.getD p fill) 0)
      else
        (nodeX2.getD (rm.1.headD fill) 0, nodeY.getD (rm.1.headD fill) 0) := by
  unfold shellOfClosedRow
  have hp2 : p < ((List.range (nMax + 1)).map
      (fun p =>
        if p < rm.2 then
          (nodeX2.getD (rm.1.getD p fill) 0, nodeY.getD (rm.1.getD p fill) 0)
        else
          (nodeX2.getD (rm.1.headD fill) 0,
            nodeY.getD (rm.1.headD fill) 0))).length := by
    simp [hp]
  rw [List.getD_eq_getElem _ _ hp2, List.getElem_map, List.getElem_range]

lemma buildPolygonShells_getD (nodeX nodeY : List ℚ)
    (faceNodes : List (List Nat)) (nMax : Nat) (nNodesPerFace : List Nat)
    (fill : Nat) (f : Nat) (hf : f < faceNodes.length)
    (hlen : faceNodes.length = nNodesPerFace.length) :
    (buildPolygonShells nodeX nodeY faceNodes nMax nNodesPerFace fill).getD
        f [] =
      shellOfClosedRow (normalizeLon nodeX) nodeY nMax fill
        (closeFaceRow (faceNodes.getD f []) (nNodesPerFace.getD f 0) nMax
          fill, nNodesPerFace.getD f 0 + 1) := by
  unfold buildPolygonShells
  have hz : f < ((closeFaceNodes faceNodes nNodesPerFace nMax fill).zip
      (nNodesPerFace.map (· + 1))).length := by
    simp [List.length_zip, closeFaceNodes]
    omega
  have hmapped : f < (((closeFaceNodes faceNodes nNodesPerFace nMax
      fill).zip (nNodesPerFace.map (· + 1))).map
      (shellOfClosedRow (normalizeLon nodeX) nodeY nMax fill)).length := by
    rw [List.length_map]
    exact hz
  rw [List.getD_eq_getElem _ _ hmapped, List.getElem_map]
  congr 1
  rw [List.getElem_zip]
  have hcf : f < (closeFaceNodes faceNodes nNodesPerFace nMax fill).length := by
    simp [closeFaceNodes]
    omega
  have hnn : f < nNodesPerFace.length := by omega
  have hm2 : f < (nNodesPerFace.map (· + 1)).length := by
    simpa using hnn
  have h1 : (closeFaceNodes faceNodes nNodesPerFace nMax fill)[f] =
      closeFaceRow (faceNodes.getD f []) (nNodesPerFace.getD f 0) nMax
        fill := by
    unfold closeFaceNodes
    rw [List.getElem_map, List.getElem_zip]
    rw [List.getD_eq_getElem faceNodes [] hf,
      List.getD_eq_getElem nNodesPerFace 0 hnn]
  have h2 : (nNodesPerFace.map (· + 1))[f] =
      nNodesPerFace.getD f 0 + 1 := by
    rw [List.getElem_map, List.getD_eq_getElem nNodesPerFace 0 hnn]
  rw [Prod.ext_iff]
  exact ⟨h1, h2⟩

/-- C4: for every face — regardless of its node count `k`, including
max-degree faces with `k = nMax` — the produced shell has length `nMax + 1`
and identical first and last vertices; and whenever a padding position
`k + 1 ≤ p ≤ nMax` exists, it repeats the first vertex. -/
theorem c4_shell_uniform_closed (nodeX nodeY : List ℚ)
    (faceNodes : List (List Nat)) (nMax : Nat) (nNodesPerFace : List Nat)
    (fill : Nat) (f p : Nat) (hf : f < faceNodes.length)
    (hlen : faceNodes.length = nNodesPerFace.length)
    (hrow : (faceNodes.getD f []).length = nMax)
    (hk : nNodesPerFace.getD f 0 ≤ nMax) :
    ((buildPolygonShells nodeX nodeY faceNodes nMax nNodesPerFace
        fill).getD f []).length = nMax + 1 ∧
      ((buildPolygonShells nodeX nodeY faceNodes nMax nNodesPerFace
          fill).getD f []).getD 0 (0, 0) =
        ((buildPolygonShells nodeX nodeY faceNodes nMax nNodesPerFace
            fill).getD f []).getD nMax (0, 0) ∧
      (nNodesPerFace.getD f 0 + 1 ≤ p → p ≤ nMax →
        ((buildPolygonShells nodeX nodeY faceNodes nMax nNodesPerFace
            fill).getD f []).getD p (0, 0) =
          ((buildPolygonShells nodeX nodeY faceNodes nMax nNodesPerFace
              fill).getD f []).getD 0 (0, 0)) := by
  rw [buildPolygonShells_getD nodeX nodeY faceNodes nMax nNodesPerFace fill f
    hf hlen]
  set row := faceNodes.getD f [] with hrowdef
  set k := nNodesPerFace.getD f 0 with hkdef
  set closedRow := closeFaceRow row k nMax fill with hcr
  have hhead : closedRow.getD 0 fill = row.headD fill := by
    rw [getD_zero_eq_headD]
    rw [hcr]
    exact closeFaceRow_headD row k nMax fill
  refine ⟨shellOfClosedRow_length _ _ _ _ _, ?_, ?_⟩
  · rw [shellOfClosedRow_getD _ _ _ _ _ 0 (by omega),
      shellOfClosedRow_getD _ _ _ _ _ nMax (by omega)]
    simp only [Nat.zero_lt_succ, if_pos]
    by_cases hkm : nMax < k + 1
    · have hkeq : k = nMax := by omega
      rw [if_pos hkm]
      rw [hhead]
      rw [← hkeq]
      rw [hcr, closeFaceRow_getD_self row k nMax fill (by omega)]
    · rw [if_neg hkm]
      rw [hhead]
      rw [hcr, closeFaceRow_headD row k nMax fill]
  · intro hp1 hp2
    rw [shellOfClosedRow_getD _ _ _ _ _ p (by omega),
      shellOfClosedRow_getD _ _ _ _ _ 0 (by omega)]
    simp only [Nat.zero_lt_succ, if_pos]
    rw [if_neg (by omega : ¬p < k + 1)]
    rw [hhead]
    rw [hcr, closeFaceRow_headD row k nMax fill]

theorem c4_shell_uniform_closed_witness :
    ((buildPolygonShells [0, 10, 20, 30] [0, 1, 2, 3]
        [[0, 1, 2, 3], [1, 2, 0, 0]] 4 [4, 3] 99).getD 1 []).length = 4 + 1 ∧
      ((buildPolygonShells [0, 10, 20, 30] [0, 1, 2, 3]
          [[0, 1, 2, 3], [1, 2, 0, 0]] 4 [4, 3] 99).getD 1 []).getD 0
          (0, 0) =
        ((buildPolygonShells [0, 10, 20, 30] [0, 1, 2, 3]
            [[0, 1, 2, 3], [1, 2, 0, 0]] 4 [4, 3] 99).getD 1 []).getD 4
          (0, 0) ∧
      (([4, 3] : List Nat).getD 1 0 + 1 ≤ 4 → 4 ≤ 4 →
        ((buildPolygonShells [0, 10, 20, 30] [0, 1, 2, 3]
            [[0, 1, 2, 3], [1, 2, 0, 0]] 4 [4, 3] 99).getD 1 []).getD 4
            (0, 0) =
          ((buildPolygonShells [0, 10, 20, 30] [0, 1, 2, 3]
              [[0, 1, 2, 3], [1, 2, 0, 0]] 4 [4, 3] 99).getD 1 []).getD 0
            (0, 0)) :=
  c4_shell_uniform_closed [0, 10, 20, 30] [0, 1, 2, 3]
    [[0, 1, 2, 3], [1, 2, 0, 0]] 4 [4, 3] 99 1 4 (by decide) (by decide)
    (by decide) (by decide)

/-! ### Claim C5 -/

lemma foldl_append_pair {α β : Type} (f : Nat → List α) (g : Nat → List β)
    (l : List Nat) :
    ∀ (a : List α) (b : List β),
      l.foldl (fun acc i => (acc.1 ++ f i, acc.2 ++ g i)) (a, b) =
        (a ++ l.flatMap f, b ++ l.flatMap g) := by
  induction l with
  | nil =>
    intro a b
    simp
  | cons i t ih =>
    intro a b
    rw [List.foldl_cons, List.flatMap_cons]
    rw [ih]
    simp [List.append_assoc]

lemma buildCorrectedPolygonShells_eq (fix : Shell → List Shell)
    (shells : List Shell) :
    buildCorrectedPolygonShells fix shells =
      ((List.range shells.length).flatMap (fun i => fix (shells.getD i [])),
        (List.range shells.length).flatMap
          (fun i => List.replicate (fix (shells.getD i [])).length i)) := by
  show (List.range shells.length).foldl
      (fun acc i =>
        (acc.1 ++ fix (shells.getD i []),
          acc.2 ++ List.replicate (fix (shells.getD i [])).length i))
      ([], []) = _
  rw [foldl_append_pair]
  simp

lemma sum_map_range_single (n i c : Nat) (hi : i < n) :
    ((List.range n).map (fun j => if j = i then c else 0)).sum = c := by
  induction n with
  | zero => omega
  | succ m ih =>
    rw [List.range_succ, List.map_append, List.sum_append]
    by_cases him : i < m
    · rw [ih him]
      simp only [List.map_cons, List.map_nil, List.sum_cons, List.sum_nil]
      rw [if_neg (by omega : ¬m = i)]
      omega
    · have him2 : i = m := by omega
      have hz : ((List.range m).map (fun j => if j = i then c else 0)).sum
          = 0 := by
        apply List.sum_eq_zero
        intro x hx
        rw [List.mem_map] at hx
        obtain ⟨j, hj, hxj⟩ := hx
        rw [List.mem_range] at hj
        rw [← hxj, if_neg (by omega)]
      rw [hz]
      simp [him2]

lemma count_flatMap_replicate (n : Nat) (lenf : Nat → Nat) (i : Nat)
    (hi : i < n) :
    ((List.range n).flatMap (fun j => List.replicate (lenf j) j)).count i
      = lenf i := by
  rw [List.count_flatMap]
  have h1 : (List.range n).map
        (List.count i ∘ fun j => List.replicate (lenf j) j)
      = (List.range n).map (fun j => if j = i then lenf i else 0) := by
    apply List.map_congr_left
    intro j hj
    simp only [Function.comp_apply, List.count_replicate]
    by_cases hji : j = i
    · subst hji
      simp
    · simp [hji, Ne.symm hji]
  rw [h1]
  exact sum_map_range_single n i (lenf i) hi

/-- C5: the original-to-corrected map has one entry per corrected polygon
part; it is exactly the in-order concatenation of constant blocks (so a face's
entries are consecutive and all equal to that face's index); each face `i`
contributes exactly `(fix shellᵢ).length` entries — one for a face corrected
to a single polygon, one per part for a split face — and appears at least
once. -/
theorem c5_original_to_corrected_map (fix : Shell → List Shell)
    (shells : List Shell) (i : Nat) (hne : ∀ s, fix s ≠ [])
    (hi : i < shells.length) :
    ((buildCorrectedPolygonShells fix shells).2).length =
        ((buildCorrectedPolygonShells fix shells).1).length
    ∧ (buildCorrectedPolygonShells fix shells).2 =
        (List.range shells.length).flatMap
          (fun j => List.replicate (fix (shells.getD j [])).length j)
    ∧ ((buildCorrectedPolygonShells fix shells).2).count i =
        (fix (shells.getD i [])).length
    ∧ i ∈ (buildCorrectedPolygonShells fix shells).2 := by
  rw [buildCorrectedPolygonShells_eq]
  refine ⟨?_, rfl, ?_, ?_⟩
  · rw [List.length_flatMap, List.length_flatMap]
    congr 1
    apply List.map_congr_left
    intro j hj
    simp [Function.comp]
  · exact count_flatMap_replicate shells.length
      (fun j => (fix (shells.getD j [])).length) i hi
  · rw [← List.count_pos_iff]
    rw [count_flatMap_replicate shells.length
      (fun j => (fix (shells.getD j [])).length) i hi]
    exact List.length_pos.mpr (hne (shells.getD i []))

theorem c5_original_to_corrected_map_witness :
    ((buildCorrectedPolygonShells
        (fun s => if 4 < s.length then [s.take 2, s.drop 2] else [s])
        [[(1, 1)], [(1, 1), (2, 2), (3, 3), (4, 4), (5, 5)],
          [(0, 0)]]).2).length =
      ((buildCorrectedPolygonShells
          (fun s => if 4 < s.length then [s.take 2, s.drop 2] else [s])
          [[(1, 1)], [(1, 1), (2, 2), (3, 3), (4, 4), (5, 5)],
            [(0, 0)]]).1).length
    ∧ (buildCorrectedPolygonShells
          (fun s => if 4 < s.length then [s.take 2, s.drop 2] else [s])
          [[(1, 1)], [(1, 1), (2, 2), (3, 3), (4, 4), (5, 5)],
            [(0, 0)]]).2 =
        (List.range
            ([[((1 : ℚ), (1 : ℚ))],
              [(1, 1), (2, 2), (3, 3), (4, 4), (5, 5)],
              [(0, 0)]] : List Shell).length).flatMap
          (fun j =>
            List.replicate
              ((fun s => if 4 < s.length then [s.take 2, s.drop 2] else [s])
                (([[((1 : ℚ), (1 : ℚ))],
                  [(1, 1), (2, 2), (3, 3), (4, 4), (5, 5)],
                  [(0, 0)]] : List Shell).getD j [])).length j)
    ∧ ((buildCorrectedPolygonShells
          (fun s => if 4 < s.length then [s.take 2, s.drop 2] else [s])
          [[(1, 1)], [(1, 1), (2, 2), (3, 3), (4, 4), (5, 5)],
            [(0, 0)]]).2).count 1 =
        ((fun s => if 4 < s.length then [s.take 2, s.drop 2] else [s])
          (([[((1 : ℚ), (1 : ℚ))],
            [(1, 1), (2, 2), (3, 3), (4, 4), (5, 5)],
            [(0, 0)]] : List Shell).getD 1 [])).length
    ∧ 1 ∈ (buildCorrectedPolygonShells
          (fun s => if 4 < s.length then [s.take 2, s.drop 2] else [s])
          [[(1, 1)], [(1, 1), (2, 2), (3, 3), (4, 4), (5, 5)],
            [(0, 0)]]).2 :=
  c5_original_to_corrected_map
    (fun s => if 4 < s.length then [s.take 2, s.drop 2] else [s])
    [[(1, 1)], [(1, 1), (2, 2), (3, 3), (4, 4), (5, 5)], [(0, 0)]] 1
    (by
      intro s
      simp only []
      split <;> simp)
    (by decide)

/-! ### Claim C6 -/

lemma zip_range_filter_map (xs : List ℚ) (q : Nat → Bool) :
    (((List.range xs.length).zip xs).filter (fun p => q p.1)).map Prod.snd
      = ((List.range xs.length).filter q).map (fun j => xs.getD j 0) := by
  induction xs generalizing q with
  | nil => simp
  | cons x t ih =>
    have hc1 : (Prod.snd ∘ Prod.map Nat.succ id : Nat × ℚ → ℚ)
        = Prod.snd := by
      funext p
      rfl
    have hc2 : ((fun j => (x :: t).getD j 0) ∘ Nat.succ)
        = fun j => t.getD j 0 := by
      funext j
      exact List.getD_cons_succ
    have hq : ((fun p => q p.1) ∘ Prod.map Nat.succ id : Nat × ℚ → Bool)
        = fun p => q (p.1 + 1) := by
      funext p
      rfl
    have hq2 : (q ∘ Nat.succ) = fun j => q (j + 1) := by
      funext j
      rfl
    rw [List.length_cons, List.range_succ_eq_map, List.zip_cons_cons,
      List.filter_cons, List.filter_cons, List.zip_map_left, List.filter_map,
      List.filter_map]
    by_cases h0 : q 0
    · simp only [h0, if_pos, List.map_cons, List.map_map, hc1, hc2, hq, hq2,
        List.getD_cons_zero]
      exact congrArg₂ List.cons rfl (ih (fun j => q (j + 1)))
    · simp only [h0, Bool.false_eq_true, if_false, List.map_map, hc1, hc2,
        hq, hq2]
      exact ih (fun j => q (j + 1))

lemma npDelete_eq_filter_map (xs : List ℚ) (idxs : List Nat) :
    npDelete xs idxs =
      ((List.range xs.length).filter (fun j => !(idxs.contains j))).map
        (fun j => xs.getD j 0) := by
  unfold npDelete
  rw [List.enum_eq_zip_range]
  exact zip_range_filter_map xs (fun j => !(idxs.contains j))

lemma antimeridianFaceIndices_nodup (shells : List Shell) :
    (antimeridianFaceIndices shells).Nodup :=
  (List.nodup_range shells.length).filter _

lemma length_filter_contains (n : Nat) (l : List Nat) (hnd : l.Nodup)
    (hlt : ∀ j ∈ l, j < n) :
    ((List.range n).filter (fun j => l.contains j)).length = l.length := by
  have hperm : ((List.range n).filter (fun j => l.contains j)).Perm l := by
    rw [List.perm_ext_iff_of_nodup ((List.nodup_range n).filter _) hnd]
    intro a
    rw [List.mem_filter, List.mem_range]
    constructor
    · rintro ⟨h1, h2⟩
      simpa using h2
    · intro h
      exact ⟨hlt a h, by simpa using h⟩
  exact hperm.length_eq

lemma length_filter_not_contains (n : Nat) (l : List Nat) (hnd : l.Nodup)
    (hlt : ∀ j ∈ l, j < n) :
    ((List.range n).filter (fun j => !(l.contains j))).length
      = n - l.length := by
  have hsplit : (List.range n).length =
      ((List.range n).filter (fun j => l.contains j)).length +
        ((List.range n).filter (fun j => !(l.contains j))).length :=
    List.length_eq_length_filter_add _
  rw [List.length_range] at hsplit
  rw [length_filter_contains n l hnd hlt] at hsplit
  omega

/-- C6: `to_geodataframe` with `exclude_antimeridian=True` on a face-sized 1-D
variable returns the data column obtained by deleting the flagged face
positions, i.e. the source values at the non-flagged indices in original
order, of length `n_face` minus the number of flagged faces. -/
theorem c6_exclude_antimeridian_column (da : NDArray ℚ) (nFace nNode : Nat)
    (shells : List Shell) (hdim : da.shape.length = 1)
    (hsize : da.data.length = nFace) (hsh : shells.length = nFace) :
    toGeodataframe da nFace nNode shells true =
        .ok (((List.range nFace).filter
          (fun j => !((antimeridianFaceIndices shells).contains j))).map
          (fun j => da.data.getD j 0))
    ∧ (npDelete da.data (antimeridianFaceIndices shells)).length =
        nFace - (antimeridianFaceIndices shells).length := by
  have hlt : ∀ j ∈ antimeridianFaceIndices shells, j < nFace := by
    intro j hj
    rw [mem_antimeridianFaceIndices] at hj
    omega
  have hok : toGeodataframe da nFace nNode shells true =
      .ok (npDelete da.data (antimeridianFaceIndices shells)) := by
    unfold toGeodataframe
    rw [hdim]
    simp [hsize]
  constructor
  · rw [hok, npDelete_eq_filter_map, hsize]
  · rw [npDelete_eq_filter_map, List.length_map, hsize]
    exact length_filter_not_contains nFace (antimeridianFaceIndices shells)
      (antimeridianFaceIndices_nodup shells) hlt

theorem c6_exclude_antimeridian_column_witness :
    (toGeodataframe ⟨[2], [10, 20]⟩ 2 7
          [[(179, 0), (-179, 0)], [(0, 0), (1, 1)]] true =
        .ok (((List.range 2).filter
          (fun j => !((antimeridianFaceIndices
            [[(179, 0), (-179, 0)], [(0, 0), (1, 1)]]).contains j))).map
          (fun j => ([(10 : ℚ), 20]).getD j 0))
    ∧ (npDelete [10, 20] (antimeridianFaceIndices
          [[(179, 0), (-179, 0)], [(0, 0), (1, 1)]])).length =
        2 - (antimeridianFaceIndices
          [[(179, 0), (-179, 0)], [(0, 0), (1, 1)]]).length) :=
  c6_exclude_antimeridian_column ⟨[2], [10, 20]⟩ 2 7
    [[(179, 0), (-179, 0)], [(0, 0), (1, 1)]] (by decide) (by decide)
    (by decide)

/-! ### Claim C10 -/

lemma zip_self_map {α : Type} (l : List Nat) (F : Nat → α) :
    l.zip (l.map F) = l.map (fun i => (i, F i)) := by
  induction l with
  | nil => rfl
  | cons a t ih => simp [List.zip_cons_cons, ih]

lemma foldl_set_pairs {P : Type} [Inhabited P] (F : Nat → P) :
    ∀ (l : List Nat) (polys : List P), l.Nodup →
      (((l.map (fun i => (i, F i))).reverse).foldl
          (fun ps ic => ps.set ic.1 ic.2) polys).length = polys.length
      ∧ ∀ j, (((l.map (fun i => (i, F i))).reverse).foldl
            (fun ps ic => ps.set ic.1 ic.2) polys).getD j default =
          if j ∈ l ∧ j < polys.length then F j else polys.getD j default := by
  intro l
  induction l with
  | nil =>
    intro polys hnd
    refine ⟨rfl, ?_⟩
    intro j
    simp
  | cons i t ih =>
    intro polys hnd
    obtain ⟨hit, hndt⟩ := List.nodup_cons.mp hnd
    obtain ⟨ihlen, ihget⟩ := ih polys hndt
    rw [List.map_cons, List.reverse_cons, List.foldl_append]
    set prev := ((t.map (fun i => (i, F i))).reverse).foldl
      (fun ps ic => ps.set ic.1 ic.2) polys with hprev
    constructor
    · rw [List.foldl_cons, List.foldl_nil, List.length_set]
      exact ihlen
    · intro j
      rw [List.foldl_cons, List.foldl_nil]
      by_cases hji : j = i
      · subst hji
        by_cases hlt : j < polys.length
        · rw [List.getD_eq_getElem?_getD,
            List.getElem?_set_self (by rw [ihlen]; exact hlt)]
          simp [hlt]
        · rw [List.set_eq_of_length_le (by rw [ihlen]; omega)]
          rw [ihget j]
          rw [if_neg (by tauto), if_neg (by tauto)]
      · rw [List.getD_eq_getElem?_getD, List.getElem?_set_ne
          (fun h => hji h.symm), ← List.getD_eq_getElem?_getD]
        rw [ihget j]
        by_cases hjt : j ∈ t ∧ j < polys.length
        · rw [if_pos hjt, if_pos ⟨List.mem_cons_of_mem i hjt.1, hjt.2⟩]
        · rw [if_neg hjt, if_neg ?_]
          rintro ⟨hm, hl⟩
          rcases List.mem_cons.mp hm with h | h
          · exact hji h
          · exact hjt ⟨h, hl⟩

/-- C10: `grid_to_polygons` returns one geometry entry per face in face
order: a non-flagged face keeps its unmodified polygon and each flagged face
`i` holds the corrected geometry of that same face `i` after the reversed
write-back loop. -/
theorem c10_polygons_per_face (fixPolygon : Shell → Shell)
    (shells : List Shell) (i : Nat) (hi : i < shells.length) :
    (gridToPolygonsOfShells fixPolygon shells).length = shells.length
    ∧ (gridToPolygonsOfShells fixPolygon shells).getD i [] =
        (if crossesAntimeridian (shells.getD i []) then
          fixPolygon (shells.getD i [])
        else shells.getD i []) := by
  unfold gridToPolygonsOfShells gridToPolygons
  rw [List.map_map, zip_self_map]
  obtain ⟨hlen, hget⟩ := foldl_set_pairs
    (fun j => (fixPolygon ∘ fun i => shells.getD i default) j)
    (antimeridianFaceIndices shells) shells
    (antimeridianFaceIndices_nodup shells)
  refine ⟨hlen, ?_⟩
  simp only [show (default : Shell) = [] from rfl] at hget ⊢
  rw [hget i]
  by_cases hc : crossesAntimeridian (shells.getD i []) = true
  · rw [if_pos ⟨(mem_antimeridianFaceIndices shells i).mpr ⟨hi, hc⟩, hi⟩,
      if_pos hc]
    rfl
  · have hnm : ¬(i ∈ antimeridianFaceIndices shells ∧ i < shells.length) := by
      rintro ⟨hm, hl⟩
      exact hc ((mem_antimeridianFaceIndices shells i).mp hm).2
    rw [if_neg hnm, if_neg hc]

theorem c10_polygons_per_face_witness :
    (gridToPolygonsOfShells (fun s => s ++ s)
        [[(179, 0), (-179, 0)], [(0, 0), (1, 1)],
          [(0, 0), (-179, 0), (179, 0)]]).length =
      ([[((179 : ℚ), (0 : ℚ)), (-179, 0)], [(0, 0), (1, 1)],
        [(0, 0), (-179, 0), (179, 0)]] : List Shell).length
    ∧ (gridToPolygonsOfShells (fun s => s ++ s)
          [[(179, 0), (-179, 0)], [(0, 0), (1, 1)],
            [(0, 0), (-179, 0), (179, 0)]]).getD 0 [] =
        (if crossesAntimeridian
            (([[((179 : ℚ), (0 : ℚ)), (-179, 0)], [(0, 0), (1, 1)],
              [(0, 0), (-179, 0), (179, 0)]] : List Shell).getD 0 []) then
          (fun s => s ++ s)
            (([[((179 : ℚ), (0 : ℚ)), (-179, 0)], [(0, 0), (1, 1)],
              [(0, 0), (-179, 0), (179, 0)]] : List Shell).getD 0 [])
        else
          ([[((179 : ℚ), (0 : ℚ)), (-179, 0)], [(0, 0), (1, 1)],
            [(0, 0), (-179, 0), (179, 0)]] : List Shell).getD 0 []) :=
  c10_polygons_per_face (fun s => s ++ s)
    [[(179, 0), (-179, 0)], [(0, 0), (1, 1)],
      [(0, 0), (-179, 0), (179, 0)]] 0 (by decide)

/-! ### Claim C2 -/

lemma squeezeIndices_of_pair (nn : NDArray Nat) (m : Nat)
    (h : nn.shape = [m, 1]) :
    squeezeIndices nn = ⟨if m = 1 then [] else [m], nn.data⟩ := by
  unfold squeezeIndices npSqueeze
  rw [h]
  rw [if_pos (by simp)]
  by_cases hm : m = 1 <;> simp [List.filter_cons, hm]

lemma gatherLast_shape (a : NDArray ℚ) (idx : NDArray Nat) :
    (gatherLast a idx).shape = a.shape.dropLast ++ idx.shape := rfl

lemma dropLast_of_length_one {α : Type} (l : List α) (h : l.length = 1) :
    l.dropLast = [] := by
  obtain ⟨a, rfl⟩ := List.length_eq_one.mp h
  rfl

lemma gatherDestinationData_query_shape (sourceData : NDArray ℚ) {π : Type}
    [Inhabited π] (d : π → π → ℚ) (pts qs : List π)
    (hnd : sourceData.shape ≠ []) :
    (gatherDestinationData sourceData (queryBallTree d pts qs)).shape =
      sourceData.shape.dropLast ++
        (if qs.length = 1 then [] else [qs.length]) := by
  unfold gatherDestinationData postGather
  rw [squeezeIndices_of_pair (queryBallTree d pts qs) qs.length rfl]
  by_cases hdim : sourceData.shape.length = 1
  · rw [if_pos hdim]
    unfold npSqueeze
    rw [gatherLast_shape]
    rw [dropLast_of_length_one sourceData.shape hdim]
    by_cases hq1 : qs.length = 1
    · simp [hq1]
    · simp [hq1, List.filter_cons]
  · rw [if_neg hdim]
    rw [gatherLast_shape]

lemma nearestNeighborRun_sph_ok (dSph : ℚ × ℚ → ℚ × ℚ → ℚ)
    (dCart : ℚ × ℚ × ℚ → ℚ × ℚ × ℚ → ℚ) (sg dg : Grid)
    (sourceData : NDArray ℚ) (remapTo : String) (mapping : ElementKind)
    (destPts : List (ℚ × ℚ))
    (hm : resolveSourceDataMapping sg (sourceData.shape.getLastD 0)
      = some mapping)
    (hd : destSphCoords dg remapTo = some destPts) :
    nearestNeighborRun dSph dCart sg dg sourceData remapTo "spherical" =
      ⟨.ok (gatherDestinationData sourceData
        (queryBallTree dSph (sourceSphCoords sg mapping) destPts)),
        true⟩ := by
  unfold nearestNeighborRun
  rw [hm]
  simp [hd]

lemma nearestNeighborRun_cart_ok (dSph : ℚ × ℚ → ℚ × ℚ → ℚ)
    (dCart : ℚ × ℚ × ℚ → ℚ × ℚ × ℚ → ℚ) (sg dg : Grid)
    (sourceData : NDArray ℚ) (remapTo : String) (mapping : ElementKind)
    (destPts : List (ℚ × ℚ × ℚ))
    (hm : resolveSourceDataMapping sg (sourceData.shape.getLastD 0)
      = some mapping)
    (hd : destCartCoords dg remapTo = some destPts) :
    nearestNeighborRun dSph dCart sg dg sourceData remapTo "cartesian" =
      ⟨.ok (gatherDestinationData sourceData
        (queryBallTree dCart (sourceCartCoords sg mapping) destPts)),
        true⟩ := by
  unfold nearestNeighborRun
  rw [hm]
  simp [hd]

lemma destSphCoords_length (g : Grid) (remapTo : String) (hwf : g.wf)
    (hr : remapTo = "nodes" ∨ remapTo = "edge centers" ∨
      remapTo = "face centers") :
    ∃ destPts, destSphCoords g remapTo = some destPts ∧
      destPts.length = remapToDim g remapTo := by
  obtain ⟨h1, h2, h3, h4, h5, h6⟩ := hwf
  rcases hr with hr | hr | hr <;> subst hr
  · exact ⟨g.node_sph, by simp [destSphCoords], by simp [remapToDim, h1]⟩
  · exact ⟨g.edge_sph, by simp [destSphCoords], by simp [remapToDim, h2]⟩
  · exact ⟨g.face_sph, by simp [destSphCoords], by simp [remapToDim, h3]⟩

lemma destCartCoords_length (g : Grid) (remapTo : String) (hwf : g.wf)
    (hr : remapTo = "nodes" ∨ remapTo = "edge centers" ∨
      remapTo = "face centers") :
    ∃ destPts, destCartCoords g remapTo = some destPts ∧
      destPts.length = remapToDim g remapTo := by
  obtain ⟨h1, h2, h3, h4, h5, h6⟩ := hwf
  rcases hr with hr | hr | hr <;> subst hr
  · exact ⟨g.node_cart, by simp [destCartCoords], by simp [remapToDim, h4]⟩
  · exact ⟨g.edge_cart, by simp [destCartCoords], by simp [remapToDim, h5]⟩
  · exact ⟨g.face_cart, by simp [destCartCoords], by simp [remapToDim, h6]⟩

/-- C2 (amended): a valid remap call returns an array whose shape is the
input's leading dimensions followed by the destination element count for
`remap_to` — except that a destination count of 1 is squeezed away entirely.
For destination counts of at least 2 the claimed shape contract holds, and a
1-D input yields a 1-D output. -/
theorem c2_remap_output_shape (dSph : ℚ × ℚ → ℚ × ℚ → ℚ)
    (dCart : ℚ × ℚ × ℚ → ℚ × ℚ × ℚ → ℚ) (sg dg : Grid)
    (sourceData : NDArray ℚ) (remapTo coordType : String)
    (hnd : sourceData.shape ≠ [])
    (hres : resolveSourceDataMapping sg (sourceData.shape.getLastD 0) ≠ none)
    (hr : remapTo = "nodes" ∨ remapTo = "edge centers" ∨
      remapTo = "face centers")
    (hc : coordType = "spherical" ∨ coordType = "cartesian")
    (hwf : dg.wf) :
    ∃ arr,
      nearestNeighbor dSph dCart sg dg sourceData remapTo coordType = .ok arr
      ∧ arr.shape = sourceData.shape.dropLast ++
          (if remapToDim dg remapTo = 1 then [] else [remapToDim dg remapTo])
      ∧ (2 ≤ remapToDim dg remapTo →
          arr.shape = sourceData.shape.dropLast ++ [remapToDim dg remapTo])
      ∧ (2 ≤ remapToDim dg remapTo → sourceData.shape.length = 1 →
          arr.shape = [remapToDim dg remapTo]) := by
  obtain ⟨mapping, hm⟩ := Option.ne_none_iff_exists'.mp hres
  rcases hc with hc | hc <;> subst hc
  · obtain ⟨destPts, hd, hl⟩ := destSphCoords_length dg remapTo hwf hr
    have hrun := nearestNeighborRun_sph_ok dSph dCart sg dg sourceData
      remapTo mapping destPts hm hd
    have hshape := gatherDestinationData_query_shape sourceData dSph
      (sourceSphCoords sg mapping) destPts hnd
    rw [hl] at hshape
    refine ⟨_, ?_, hshape, ?_, ?_⟩
    · unfold nearestNeighbor
      rw [hrun]
    · intro h2le
      rw [hshape, if_neg (by omega)]
    · intro h2le hdim1
      rw [hshape, if_neg (by omega), dropLast_of_length_one _ hdim1]
      rfl
  · obtain ⟨destPts, hd, hl⟩ := destCartCoords_length dg remapTo hwf hr
    have hrun := nearestNeighborRun_cart_ok dSph dCart sg dg sourceData
      remapTo mapping destPts hm hd
    have hshape := gatherDestinationData_query_shape sourceData dCart
      (sourceCartCoords sg mapping) destPts hnd
    rw [hl] at hshape
    refine ⟨_, ?_, hshape, ?_, ?_⟩
    · unfold nearestNeighbor
      rw [hrun]
    · intro h2le
      rw [hshape, if_neg (by omega)]
    · intro h2le hdim1
      rw [hshape, if_neg (by omega), dropLast_of_length_one _ hdim1]
      rfl

theorem c2_remap_output_shape_witness :
    ∃ arr,
      nearestNeighbor sqDistSph sqDistCart srcGrid2 destGrid2
          ⟨[2], [3, 4]⟩ "face centers" "spherical" = .ok arr
      ∧ arr.shape = ([2] : List Nat).dropLast ++
          (if remapToDim destGrid2 "face centers" = 1 then []
          else [remapToDim destGrid2 "face centers"])
      ∧ (2 ≤ remapToDim destGrid2 "face centers" →
          arr.shape = ([2] : List Nat).dropLast ++
            [remapToDim destGrid2 "face centers"])
      ∧ (2 ≤ remapToDim destGrid2 "face centers" →
          ([2] : List Nat).length = 1 →
          arr.shape = [remapToDim destGrid2 "face centers"]) :=
  c2_remap_output_shape sqDistSph sqDistCart srcGrid2 destGrid2
    ⟨[2], [3, 4]⟩ "face centers" "spherical" (by decide) (by decide)
    (Or.inr (Or.inr rfl)) (Or.inl rfl) ⟨rfl, rfl, rfl, rfl, rfl, rfl⟩

/-- C2 counterexample: a valid call whose destination element count is 1
returns a 0-d array — the trailing dimension is dropped, not replaced by the
destination count, and the 1-D input does not come back 1-D. -/
theorem c2_remap_output_shape_counterexample :
    nearestNeighbor discreteDist discreteDist srcGrid2 destGrid1
        ⟨[2], [3, 4]⟩ "face centers" "spherical" = .ok ⟨[], [3]⟩
    ∧ destGrid1.wf
    ∧ destGrid1.n_face = 1
    ∧ ([] : List Nat) ≠ [destGrid1.n_face]
    ∧ ([] : List Nat).length ≠ 1 :=
  ⟨by decide, ⟨rfl, rfl, rfl, rfl, rfl, rfl⟩, by decide, by decide,
    by decide⟩

/-! ### Claim C9 -/

lemma getLastD_of_ne_nil {α : Type} (l : List α) (h : l ≠ []) (d : α) :
    l.getLastD d = l.getLast h := by
  rw [List.getLastD_eq_getLast?, List.getLast?_eq_getLast l h]
  rfl

lemma foldl_argmin_eq (f : Nat → ℚ) (i : Nat) :
    ∀ (l : List Nat) (b : Nat), (∀ j ∈ l, j ≠ i → f i < f j) →
      (b = i ∨ (f i < f b ∧ i ∈ l)) →
      l.foldl (fun best j => if f j < f best then j else best) b = i := by
  intro l
  induction l with
  | nil =>
    intro b hlt hinv
    rcases hinv with h | ⟨h1, h2⟩
    · simpa using h
    · simp at h2
  | cons j t ih =>
    intro b hlt hinv
    rw [List.foldl_cons]
    apply ih
    · intro x hx hxne
      exact hlt x (List.mem_cons_of_mem j hx) hxne
    · rcases hinv with hb | ⟨hfb, hmem⟩
      · subst hb
        by_cases hji : j = b
        · subst hji
          rw [if_neg (lt_irrefl _)]
          exact Or.inl rfl
        · rw [if_neg (not_lt.mpr (le_of_lt
            (hlt j (List.mem_cons_self j t) hji)))]
          exact Or.inl rfl
      · by_cases hji : i = j
        · subst hji
          rw [if_pos hfb]
          exact Or.inl rfl
        · have hmem2 : i ∈ t := by
            rcases List.mem_cons.mp hmem with h | h
            · exact absurd h hji
            · exact h
          right
          refine ⟨?_, hmem2⟩
          by_cases hcond : f j < f b
          · rw [if_pos hcond]
            exact hlt j (List.mem_cons_self j t) (fun h => hji h.symm)
          · rw [if_neg hcond]
            exact hfb

lemma nearestIndex_self {π : Type} [Inhabited π] (d : π → π → ℚ)
    (pts : List π) (i : Nat) (hi : i < pts.length) (hnd : pts.Nodup)
    (h0 : ∀ p ∈ pts, d p p = 0)
    (hpos : ∀ p ∈ pts, ∀ q ∈ pts, p ≠ q → 0 < d p q) :
    nearestIndex d pts (pts.getD i default) = i := by
  unfold nearestIndex
  have hmi : pts.getD i default ∈ pts := by
    rw [List.getD_eq_getElem pts default hi]
    exact List.getElem_mem hi
  have hfi : d (pts.getD i default) (pts.getD i default) = 0 := h0 _ hmi
  have hkey : ∀ j ∈ List.range pts.length, j ≠ i →
      d (pts.getD i default) (pts.getD i default) <
        d (pts.getD j default) (pts.getD i default) := by
    intro j hj hne
    rw [List.mem_range] at hj
    have hmj : pts.getD j default ∈ pts := by
      rw [List.getD_eq_getElem pts default hj]
      exact List.getElem_mem hj
    have hne2 : pts.getD j default ≠ pts.getD i default := by
      rw [List.getD_eq_getElem pts default hj,
        List.getD_eq_getElem pts default hi]
      intro he
      exact hne (hnd.getElem_inj_iff.mp he)
    rw [hfi]
    exact hpos _ hmj _ hmi hne2
  apply foldl_argmin_eq
    (fun j => d (pts.getD j default) (pts.getD i default)) i
    (List.range pts.length) 0 hkey
  by_cases hi0 : i = 0
  · exact Or.inl hi0.symm
  · right
    refine ⟨?_, by rw [List.mem_range]; exact hi⟩
    exact hkey 0 (by rw [List.mem_range]; omega) (fun h => hi0 h.symm)

lemma map_nearestIndex_self {π : Type} [Inhabited π] (d : π → π → ℚ)
    (pts : List π) (hnd : pts.Nodup) (h0 : ∀ p ∈ pts, d p p = 0)
    (hpos : ∀ p ∈ pts, ∀ q ∈ pts, p ≠ q → 0 < d p q) :
    pts.map (nearestIndex d pts) = List.range pts.length := by
  apply List.ext_getElem (by simp)
  intro n h1 h2
  rw [List.getElem_map, List.getElem_range]
  have hn : n < pts.length := by simpa using h2
  rw [show pts[n] = pts.getD n default from
    (List.getD_eq_getElem pts default hn).symm]
  exact nearestIndex_self d pts n hn hnd h0 hpos

lemma range_flatMap_block {α : Type} (g : Nat → α) (n : Nat) :
    ∀ (L : Nat),
      (List.range L).flatMap
          (fun j => (List.range n).map (fun t => g (j * n + t))) =
        (List.range (L * n)).map g := by
  intro L
  induction L with
  | zero => simp
  | succ m ih =>
    rw [List.range_succ, List.flatMap_append, ih]
    simp only [List.flatMap_cons, List.flatMap_nil, List.append_nil]
    rw [Nat.succ_mul, List.range_add, List.map_append, List.map_map]
    congr 1

lemma range_map_getD {α : Type} [Inhabited α] (l : List α) :
    (List.range l.length).map (fun p => l.getD p default) = l := by
  apply List.ext_getElem (by simp)
  intro n h1 h2
  have hn : n < l.length := h2
  rw [List.getElem_map, List.getElem_range,
    List.getD_eq_getElem l default hn]

lemma gatherLast_identity (a : NDArray ℚ) (n : Nat) (hne : a.shape ≠ [])
    (hlast : a.shape.getLastD 1 = n) (hwf : a.data.length = a.shape.prod) :
    gatherLast a ⟨[n], List.range n⟩ = a := by
  unfold gatherLast
  have hshape : a.shape.dropLast ++ [n] = a.shape := by
    rw [← hlast, getLastD_of_ne_nil a.shape hne 1]
    exact List.dropLast_append_getLast hne
  have hprod : a.shape.dropLast.prod * n = a.data.length := by
    rw [hwf, ← hshape, List.prod_append]
    simp
  have hdata : (List.range a.shape.dropLast.prod).flatMap
      (fun j =>
        (List.range n).map
          (fun t => a.data.getD (j * a.shape.getLastD 1 + t) default)) =
      a.data := by
    rw [hlast]
    rw [range_flatMap_block (fun p => a.data.getD p default) n
      a.shape.dropLast.prod]
    rw [hprod]
    exact range_map_getD a.data
  exact congrArg₂ NDArray.mk hshape hdata

lemma gatherDestinationData_identity (a : NDArray ℚ) (n : Nat) (h2 : 2 ≤ n)
    (hne : a.shape ≠ []) (hlast : a.shape.getLastD 0 = n) (hwf : a.wf) :
    gatherDestinationData a ⟨[n, 1], List.range n⟩ = a := by
  have hlast1 : a.shape.getLastD 1 = n := by
    rw [getLastD_of_ne_nil a.shape hne 1, ← getLastD_of_ne_nil a.shape hne 0]
    exact hlast
  unfold gatherDestinationData
  rw [squeezeIndices_of_pair ⟨[n, 1], List.range n⟩ n rfl,
    if_neg (by omega : ¬n = 1)]
  rw [gatherLast_identity a n hne hlast1 hwf]
  unfold postGather
  by_cases hdim : a.shape.length = 1
  · rw [if_pos hdim]
    obtain ⟨x, hx⟩ := List.length_eq_one.mp hdim
    have hxn : x = n := by
      rw [hx] at hlast
      exact hlast
    unfold npSqueeze
    have hne1 : (n != 1) = true := by
      rw [bne_iff_ne]
      omega
    have hfilter : a.shape.filter (fun d => d != 1) = a.shape := by
      rw [hx, hxn, List.filter_cons, List.filter_nil, hne1, if_pos rfl]
    exact congrArg₂ NDArray.mk hfilter rfl
  · rw [if_neg hdim]

/-- C9 (amended): on a mesh whose face count differs from its node and edge
counts (so face-sized data resolves to face centers) and which has at least
two faces with pairwise-distinct face-center coordinates, remapping a
face-centered field from the mesh to itself with `remap_to="face centers"`
returns the original data unchanged, for any metric that separates points —
covering both the spherical and the Cartesian coordinate system. -/
theorem c9_self_remap_identity (dSph : ℚ × ℚ → ℚ × ℚ → ℚ)
    (dCart : ℚ × ℚ × ℚ → ℚ × ℚ × ℚ → ℚ) (g : Grid)
    (sourceData : NDArray ℚ) (coordType : String)
    (hc : coordType = "spherical" ∨ coordType = "cartesian")
    (hne : sourceData.shape ≠ [])
    (hlast : sourceData.shape.getLastD 0 = g.n_face)
    (hwf : sourceData.wf) (hface2 : 2 ≤ g.n_face)
    (hnf1 : g.n_face ≠ g.n_node) (hnf2 : g.n_face ≠ g.n_edge)
    (hlen_s : g.face_sph.length = g.n_face)
    (hlen_c : g.face_cart.length = g.n_face)
    (hnd_s : g.face_sph.Nodup) (hnd_c : g.face_cart.Nodup)
    (h0s : ∀ p ∈ g.face_sph, dSph p p = 0)
    (hps : ∀ p ∈ g.face_sph, ∀ q ∈ g.face_sph, p ≠ q → 0 < dSph p q)
    (h0c : ∀ p ∈ g.face_cart, dCart p p = 0)
    (hpc : ∀ p ∈ g.face_cart, ∀ q ∈ g.face_cart, p ≠ q → 0 < dCart p q) :
    nearestNeighbor dSph dCart g g sourceData "face centers" coordType =
      .ok sourceData := by
  have hm : resolveSourceDataMapping g (sourceData.shape.getLastD 0)
      = some .faceCenters :=
    resolveSourceDataMapping_eq_faces g _ (by rw [hlast]; exact hnf1)
      (by rw [hlast]; exact hnf2) hlast
  rcases hc with hc | hc <;> subst hc
  · have hd : destSphCoords g "face centers" = some g.face_sph := by
      simp [destSphCoords]
    have hrun := nearestNeighborRun_sph_ok dSph dCart g g sourceData
      "face centers" .faceCenters g.face_sph hm hd
    unfold nearestNeighbor
    rw [hrun]
    have hq : queryBallTree dSph (sourceSphCoords g .faceCenters) g.face_sph
        = ⟨[g.n_face, 1], List.range g.n_face⟩ := by
      unfold queryBallTree
      show (⟨[g.face_sph.length, 1], g.face_sph.map
        (nearestIndex dSph g.face_sph)⟩ : NDArray Nat) = _
      rw [map_nearestIndex_self dSph g.face_sph hnd_s h0s hps, hlen_s]
    rw [hq, gatherDestinationData_identity sourceData g.n_face hface2 hne
      hlast hwf]
  · have hd : destCartCoords g "face centers" = some g.face_cart := by
      simp [destCartCoords]
    have hrun := nearestNeighborRun_cart_ok dSph dCart g g sourceData
      "face centers" .faceCenters g.face_cart hm hd
    unfold nearestNeighbor
    rw [hrun]
    have hq : queryBallTree dCart (sourceCartCoords g .faceCenters)
        g.face_cart = ⟨[g.n_face, 1], List.range g.n_face⟩ := by
      unfold queryBallTree
      show (⟨[g.face_cart.length, 1], g.face_cart.map
        (nearestIndex dCart g.face_cart)⟩ : NDArray Nat) = _
      rw [map_nearestIndex_self dCart g.face_cart hnd_c h0c hpc, hlen_c]
    rw [hq, gatherDestinationData_identity sourceData g.n_face hface2 hne
      hlast hwf]

theorem c9_self_remap_identity_witness :
    nearestNeighbor discreteDist discreteDist destGrid2 destGrid2
        ⟨[2], [3, 4]⟩ "face centers" "cartesian" = .ok ⟨[2], [3, 4]⟩ :=
  c9_self_remap_identity discreteDist discreteDist destGrid2
    ⟨[2], [3, 4]⟩ "cartesian" (Or.inr rfl) (by decide) (by decide)
    rfl (by decide) (by decide) (by decide) (by decide) (by decide)
    (by decide) (by decide)
    (by
      intro p hp
      simp [discreteDist])
    (by
      intro p hp q hq hne
      simp [discreteDist, hne])
    (by
      intro p hp
      simp [discreteDist])
    (by
      intro p hp q hq hne
      simp [discreteDist, hne])

/-- C9 counterexample: a mesh whose node count equals its face count makes
the shape-resolution chain anchor face-sized data to the corner nodes, so the
self-remap queries the node tree with face-center coordinates and returns
changed data even though the face centers are pairwise distinct. -/
theorem c9_self_remap_identity_counterexample :
    nearestNeighbor discreteDist discreteDist gridAmb gridAmb
        ⟨[2], [3, 4]⟩ "face centers" "spherical" = .ok ⟨[2], [3, 3]⟩
    ∧ (⟨[2], [3, 3]⟩ : NDArray ℚ) ≠ ⟨[2], [3, 4]⟩
    ∧ gridAmb.wf
    ∧ gridAmb.face_sph.Nodup
    ∧ gridAmb.face_cart.Nodup :=
  ⟨by decide, by decide, ⟨rfl, rfl, rfl, rfl, rfl, rfl⟩, by decide,
    by decide⟩

end UX
